import Mathlib

/-!
Shallow embedding of the DetectaBB backend core:
`src/ml/explainer.py` (verdict synthesis) and the submission endpoint
`analisar_boleto` of `src/api/main.py`.

Python dictionaries coming from the collaborators (validation result,
classifier prediction, extracted data) are modelled by the dynamic value
type `PyVal`; Python exceptions are modelled by the `Py` monad
(`Except String`).  Machine floats are modelled by `Rat`; none of the
verified properties depends on floating-point rounding.
-/

namespace DetectaBB

/-- Dynamic Python value (the JSON-like values exchanged by the pipeline).
Dictionary keys are strings, as in all payloads this backend handles. -/
inductive PyVal where
  | none : PyVal
  | bool : Bool → PyVal
  | int : Int → PyVal
  | float : Rat → PyVal
  | str : String → PyVal
  | list : List PyVal → PyVal
  | dict : List (String × PyVal) → PyVal

/-- Computations that may raise a Python exception. -/
abbrev Py (α : Type) := Except String α

/-- First-match lookup in an association list (Python dict lookup;
Python dicts cannot hold duplicate keys, so first-match is exact). -/
def lookupStr {α : Type} : List (String × α) → String → Option α
  | [], _ => Option.none
  | (k, v) :: rest, key => if k = key then some v else lookupStr rest key

/-- `d.get(k, default)` on a dict value; raises on non-dicts. -/
def pyGetD (v : PyVal) (k : String) (default : PyVal) : Py PyVal :=
  match v with
  | .dict kvs => .ok ((lookupStr kvs k).getD default)
  | _ => .error "AttributeError"

/-- `d.get(k)` (default `None`). -/
def pyGet (v : PyVal) (k : String) : Py PyVal :=
  pyGetD v k .none

/-- `d[k]` string indexing; raises on missing key or non-dict. -/
def pyIndexStr (v : PyVal) (k : String) : Py PyVal :=
  match v with
  | .dict kvs =>
    match lookupStr kvs k with
    | some x => .ok x
    | Option.none => .error "KeyError"
  | _ => .error "TypeError"

/-- Python truthiness (`bool(v)`); never raises. -/
def pyTruthy : PyVal → Bool
  | .none => false
  | .bool b => b
  | .int n => n ≠ 0
  | .float q => q ≠ 0
  | .str s => s ≠ ""
  | .list xs => !xs.isEmpty
  | .dict kvs => !kvs.isEmpty

/-- Numeric reading of a value (`bool` counts as 0/1, as in Python). -/
def toRatNum : PyVal → Option Rat
  | .bool b => some (if b then 1 else 0)
  | .int n => some (n : Rat)
  | .float q => some q
  | _ => Option.none

/-- Numeric coercion used where Python would compare a value with a
number (`v >= 80` …): non-numeric operands raise `TypeError`. -/
def toRatOrErr (v : PyVal) : Py Rat :=
  match toRatNum v with
  | some q => .ok q
  | Option.none => .error "TypeError"

/-- `len(v)`; defined for strings, lists and dicts. -/
def pyLen (v : PyVal) : Py Nat :=
  match v with
  | .str s => .ok s.length
  | .list xs => .ok xs.length
  | .dict kvs => .ok kvs.length
  | _ => .error "TypeError"

/-- `for x in v`: lists yield elements, strings yield one-character
strings, dicts yield their keys; other values raise. -/
def pyIterElems (v : PyVal) : Py (List PyVal) :=
  match v with
  | .list xs => .ok xs
  | .str s => .ok (s.data.map fun c => .str (String.mk [c]))
  | .dict kvs => .ok (kvs.map fun kv => .str kv.1)
  | _ => .error "TypeError"

/-- `k in v` for a string `k`: dict key containment, list membership,
substring test on strings; raises otherwise. -/
def pyContains (v : PyVal) (k : String) : Py Bool :=
  match v with
  | .dict kvs => .ok (kvs.any fun kv => kv.1 = k)
  | .list xs => .ok (xs.any fun x => match x with | .str s => s = k | _ => false)
  | .str s => .ok (decide (k.data <:+: s.data))
  | _ => .error "TypeError"

/-- `.items()` on a dict; raises on anything else. -/
def pyItems (v : PyVal) : Py (List (String × PyVal)) :=
  match v with
  | .dict kvs => .ok kvs
  | _ => .error "AttributeError"

/-- Structural recursion version of `mapM` for the `Py` monad
(the Python `for … append` loop). -/
def mapPy {α β : Type} (f : α → Py β) : List α → Py (List β)
  | [] => .ok []
  | x :: xs => do
    let y ← f x
    let ys ← mapPy f xs
    .ok (y :: ys)

/-- Round `num / den` (with `den > 0`) half-to-even to an integer
(CPython float formatting rounds this way). -/
def roundHalfEvenScaled (num den : Int) : Int :=
  let f := num.fdiv den
  let r := num.fmod den
  if 2 * r < den then f
  else if den < 2 * r then f + 1
  else if f % 2 = 0 then f else f + 1

/-- Models the Python expression `f"{q*100:.1f}"`: the value scaled to
percent, one decimal digit.  Computed on the numerator and denominator
directly. -/
def fmtPercent1 (q : Rat) : String :=
  let n := roundHalfEvenScaled (q.num * 1000) (q.den : Int)
  let m := n.natAbs
  (if n < 0 then "-" else "") ++ toString (m / 10) ++ "." ++ toString (m % 10)

/-- Models CPython's (per-process fixed) string hashing used by
`hash(nome)` in `gerar_modo_avancado`; the exact values are immaterial,
only that the function is fixed within a process. -/
def pyhashStr (s : String) : Int :=
  (s.data.foldl (fun h c => (h * 31 + c.toNat) % 2305843009213693951) 7)

-- ===================================================================
-- Static tables of src/ml/explainer.py
-- ===================================================================

/-- One entry of `TRADUCOES_ERROS`. -/
structure Traducao where
  simples : String
  avancado : String
  categoria : String
deriving DecidableEq, Repr

def TRADUCOES_ERROS : List (String × Traducao) :=
  [ ("Primeiro dígito verificador do CNPJ inválido",
      { simples := "CNPJ do beneficiário incorreto",
        avancado := "Primeiro dígito verificador do CNPJ não corresponde ao algoritmo da Receita Federal",
        categoria := "dados_beneficiario" }),
    ("Segundo dígito verificador do CNPJ inválido",
      { simples := "CNPJ do beneficiário incorreto",
        avancado := "Segundo dígito verificador do CNPJ não corresponde ao algoritmo da Receita Federal",
        categoria := "dados_beneficiario" }),
    ("Código de barras não tem 44 dígitos",
      { simples := "Código de barras inválido",
        avancado := "Código de barras não possui o tamanho padrão FEBRABAN (44 dígitos)",
        categoria := "codigo_barras" }),
    ("DV do código de barras inválido",
      { simples := "Código de barras adulterado",
        avancado := "Dígito verificador do código de barras não corresponde ao cálculo módulo 11",
        categoria := "codigo_barras" }),
    ("Valor inconsistente",
      { simples := "Valor do boleto suspeito",
        avancado := "Valor informado não corresponde ao valor codificado na linha digitável",
        categoria := "valor" }) ]

def TRADUCOES_FEATURES : List (String × String) :=
  [ ("banco", "Código do banco"),
    ("codigoBanco", "Código bancário FEBRABAN"),
    ("agencia", "Número da agência"),
    ("valor", "Valor do boleto"),
    ("linha_codBanco", "Código do banco na linha digitável"),
    ("linha_moeda", "Código da moeda"),
    ("linha_valor", "Valor codificado") ]

/-- One entry of `CATEGORIAS`. -/
structure Categoria where
  icone : String
  nome : String
  cor : String
deriving DecidableEq, Repr

def CATEGORIAS : List (String × Categoria) :=
  [ ("dados_beneficiario", { icone := "🏢", nome := "Dados do Beneficiário", cor := "red" }),
    ("codigo_barras", { icone := "📊", nome := "Código de Barras", cor := "orange" }),
    ("valor", { icone := "💰", nome := "Valor do Boleto", cor := "orange" }),
    ("vencimento", { icone := "📅", nome := "Data de Vencimento", cor := "yellow" }),
    ("banco", { icone := "🏦", nome := "Instituição Bancária", cor := "blue" }),
    ("padrao_ml", { icone := "🤖", nome := "Padrão Detectado por IA", cor := "purple" }) ]

/-- `CATEGORIAS['padrao_ml']`. -/
def categoriaPadraoMl : Categoria :=
  { icone := "🤖", nome := "Padrão Detectado por IA", cor := "purple" }

/-- `TRADUCOES_ERROS.get(erro, default)`: string keys are looked up,
other hashable values miss, unhashable values (lists, dicts) raise. -/
def tradErro (erro : PyVal) : Py (Option Traducao) :=
  match erro with
  | .str s => .ok (lookupStr TRADUCOES_ERROS s)
  | .list _ => .error "TypeError"
  | .dict _ => .error "TypeError"
  | _ => .ok Option.none

-- ===================================================================
-- Signals ("razões") and their collection: coletar_razoes
-- ===================================================================

/-- One signal dict appended by `coletar_razoes`.  The construction
sites fix the key set, so a structure is a faithful representation;
`titulo`, the two descriptions and `impacto` hold arbitrary Python
values (an unknown error object is passed through unchanged). -/
structure Razao where
  gravidade : String
  categoria : String
  categoria_nome : String
  icone : String
  cor : String
  titulo : PyVal
  descricao_simples : PyVal
  descricao_avancada : PyVal
  impacto : PyVal
  fonte : String

/-- The dict value a `Razao` denotes inside the output explication. -/
def razaoToPy (r : Razao) : PyVal :=
  .dict [ ("gravidade", .str r.gravidade),
          ("categoria", .str r.categoria),
          ("categoria_nome", .str r.categoria_nome),
          ("icone", .str r.icone),
          ("cor", .str r.cor),
          ("titulo", r.titulo),
          ("descricao_simples", r.descricao_simples),
          ("descricao_avancada", r.descricao_avancada),
          ("impacto", r.impacto),
          ("fonte", .str r.fonte) ]

/-- `ordem_gravidade = {"critica": 4, "alta": 3, "media": 2, "baixa": 1}`
with the `.get(…, 0)` default. -/
def gravidadeRank (g : String) : Int :=
  (lookupStr [("critica", (4 : Int)), ("alta", 3), ("media", 2), ("baixa", 1)] g).getD 0

/-- Numeric value of the `impacto` field as seen by the sort key.
All signals built by `coletar_razoes` carry a numeric `impacto`
(1.0 or the classifier confidence), so the default is never exercised. -/
def impactoRat (r : Razao) : Rat :=
  (toRatNum r.impacto).getD 0

/-- `a` may precede `b` under
`sort(key=lambda x: (ordem_gravidade.get(x['gravidade'], 0), x['impacto']), reverse=True)`:
descending lexicographic comparison of the key pair.  Python's sort is
stable, and `List.mergeSort` with this relation keeps the left element
on ties, modelling that stability. -/
def razaoKeyGe (a b : Razao) : Bool :=
  decide (gravidadeRank b.gravidade < gravidadeRank a.gravidade ∨
    (gravidadeRank a.gravidade = gravidadeRank b.gravidade ∧ impactoRat b ≤ impactoRat a))

/-- Builds one FEBRABAN-validation signal from one entry of the error
list (the body of the `for erro in erros_febraban` loop). -/
def mkRazaoValidacao (erro : PyVal) : Py Razao := do
  let trad? ← tradErro erro
  let (tituloV, avancadoV, categoria_key) :=
    match trad? with
    | some t => (PyVal.str t.simples, PyVal.str t.avancado, t.categoria)
    | Option.none => (erro, erro, "outros")
  let categoria_info := (lookupStr CATEGORIAS categoria_key).getD categoriaPadraoMl
  .ok { gravidade := "critica",
        categoria := categoria_key,
        categoria_nome := categoria_info.nome,
        icone := categoria_info.icone,
        cor := categoria_info.cor,
        titulo := tituloV,
        descricao_simples := tituloV,
        descricao_avancada := avancadoV,
        impacto := .float 1,
        fonte := "Validação FEBRABAN" }

/-- `validacao.get('erros', [])` followed by the loop's iteration. -/
def errosDe (validacao : PyVal) : Py (List PyVal) := do
  let erros ← pyGetD validacao "erros" (.list [])
  pyIterElems erros

/-- The threshold `0.8` of the ML-signal severity rule, written as a
normalized rational so that it evaluates in the kernel
(`confAlta_eq` below checks it is `8/10`). -/
def confAlta : Rat := ⟨4, 5, by decide, by decide⟩

/-- The threshold `0.6`, likewise (`confMedia_eq` checks it is `6/10`). -/
def confMedia : Rat := ⟨3, 5, by decide, by decide⟩

/-- The ML signal appended when the classifier flags fraud. -/
def mkRazaoMl (confianca : PyVal) (cq : Rat) (nFeatures : Nat) : Razao :=
  { gravidade := if confAlta ≤ cq then "alta" else if confMedia ≤ cq then "media" else "baixa",
    categoria := "padrao_ml",
    categoria_nome := "Padrão Detectado por IA",
    icone := "🤖",
    cor := "purple",
    titulo := .str "Padrão suspeito identificado",
    descricao_simples := .str "A inteligência artificial identificou características atípicas neste boleto",
    descricao_avancada := .str ("Modelo de Machine Learning (Random Forest) detectou padrão com "
      ++ fmtPercent1 cq ++ "% de confiança baseado em "
      ++ toString nFeatures ++ " características analisadas"),
    impacto := confianca,
    fonte := "Modelo de IA" }

/-- The signal list as collected, before sorting. -/
def coletarRazoesList (validacao predicao_ml : PyVal) : Py (List Razao) := do
  let errosL ← errosDe validacao
  let razoesV ← mapPy mkRazaoValidacao errosL
  let flag ← pyGet predicao_ml "is_fraudulento"
  if pyTruthy flag then
    let confianca ← pyGetD predicao_ml "confianca" (.int 0)
    let cq ← toRatOrErr confianca
    let fu ← pyGetD predicao_ml "features_usadas" (.dict [])
    let nf ← pyLen fu
    .ok (razoesV ++ [mkRazaoMl confianca cq nf])
  else
    .ok razoesV

/-- Inserts `x` (an element collected before everything in the sorted
list) in front of the first element it may precede.  Helper of
`pySort`. -/
def pyInsert {α : Type} (le : α → α → Bool) (x : α) : List α → List α
  | [] => [x]
  | y :: ys => if le x y then x :: y :: ys else y :: pyInsert le x ys

/-- Stable sort under the relation `le a b` = "`a` may precede `b`"
(on ties both directions hold and the original order is kept).  The
function "stable sort" is implementation-independent, so this models
CPython's `list.sort` exactly; an insertion sort is used so that the
definition is structurally recursive and evaluates in the kernel. -/
def pySort {α : Type} (le : α → α → Bool) : List α → List α
  | [] => []
  | x :: xs => pyInsert le x (pySort le xs)

/-- `coletar_razoes`: collect, then the stable descending sort
(`razoes.sort(key=…, reverse=True)`). -/
def coletar_razoes (validacao predicao_ml : PyVal) : Py (List Razao) := do
  let razoes ← coletarRazoesList validacao predicao_ml
  .ok (pySort razaoKeyGe razoes)

-- ===================================================================
-- gerar_modo_simples / gerar_modo_avancado / recomendação / risco
-- ===================================================================

/-- `gerar_modo_simples`.  The `nivel_risco` parameter is carried (as in
the source signature) but never read by the body. -/
def gerar_modo_simples (is_fraudulento : Bool) (razoes : List Razao)
    (nivel_risco : String) (score : PyVal) : Py PyVal := do
  let (status_texto, resumo, principal_motivo, acao) :=
    if is_fraudulento then
      ("FRAUDULENTO", "Este boleto foi identificado como falso",
        ((razoes.head?.map Razao.titulo).getD (.str "Inconsistências detectadas")),
        "NÃO PAGUE este boleto")
    else
      ("VÁLIDO", "Este boleto aparenta ser autêntico",
        PyVal.str "Todas as validações foram aprovadas",
        "Você pode pagar, mas sempre confira os dados")
  let sq ← toRatOrErr score
  let confianca_texto :=
    if 80 ≤ sq then "Muito Alta"
    else if 60 ≤ sq then "Alta"
    else if 40 ≤ sq then "Média"
    else "Baixa"
  let _ := nivel_risco
  .ok (.dict [ ("status", .str status_texto),
               ("confianca", .str confianca_texto),
               ("resumo", .str resumo),
               ("principal_motivo", principal_motivo),
               ("acao_recomendada", .str acao),
               ("emoji", .str (if is_fraudulento then "🚨" else "✅")) ])

/-- `determinar_metodos_deteccao`. -/
def determinar_metodos_deteccao (validacao predicao_ml : PyVal) : Py (List String) := do
  let v ← pyGetD validacao "valido" (.bool true)
  let f ← pyGetD predicao_ml "is_fraudulento" (.bool false)
  .ok ((if !pyTruthy v then ["validacao_febraban"] else [])
    ++ (if pyTruthy f then ["modelo_ml"] else []))

/-- One entry of `features_importantes` in `gerar_modo_avancado`; the
`impacto` label comes from the per-process string hash placeholder. -/
def featureImportante (nome : String) (valor : PyVal) : PyVal :=
  .dict [ ("feature", .str nome),
          ("nome_humanizado", .str ((lookupStr TRADUCOES_FEATURES nome).getD nome)),
          ("valor", valor),
          ("impacto", .str (if 50 < (pyhashStr nome).emod 100 then "alto" else "médio")) ]

/-- `gerar_modo_avancado`. -/
def gerar_modo_avancado (validacao predicao_ml dados_extraidos : PyVal) : Py PyVal := do
  let hasFU ← pyContains predicao_ml "features_usadas"
  let features_importantes ←
    if hasFU then do
      let features ← pyIndexStr predicao_ml "features_usadas"
      let items ← pyItems features
      Except.ok (items.map fun kv => featureImportante kv.1 kv.2)
    else
      Except.ok ([] : List PyVal)
  let valido ← pyGetD validacao "valido" (.bool false)
  let erros ← pyGetD validacao "erros" (.list [])
  let total_erros ← pyLen erros
  let detalhes ← pyGetD validacao "detalhes" (.dict [])
  let classe ← pyGet predicao_ml "classe_predita"
  let probs ← pyGetD predicao_ml "probabilidades" (.dict [])
  let fu ← pyGetD predicao_ml "features_usadas" (.dict [])
  let nfu ← pyLen fu
  let score ← pyGetD predicao_ml "score_fraude" (.int 0)
  let conf ← pyGetD predicao_ml "confianca" (.int 0)
  let metodos ← determinar_metodos_deteccao validacao predicao_ml
  let banco ← pyGet dados_extraidos "banco_nome"
  let codigo_banco ← pyGet dados_extraidos "codigo_banco"
  let valor ← pyGet dados_extraidos "valor"
  let vencimento ← pyGet dados_extraidos "vencimento"
  .ok (.dict
    [ ("analise_tecnica", .dict
        [ ("validacao_febraban", .dict
            [ ("aprovada", valido),
              ("total_erros", .int total_erros),
              ("detalhes", detalhes) ]),
          ("modelo_ml", .dict
            [ ("classe_predita", classe),
              ("probabilidades", probs),
              ("features_usadas", .int nfu) ]) ]),
      ("metricas", .dict
        [ ("score_fraude", score),
          ("confianca_modelo", conf),
          ("features_importantes", .list (features_importantes.take 5)) ]),
      ("detalhes_tecnicos", .dict
        [ ("metodo_deteccao", .list (metodos.map PyVal.str)),
          ("versao_modelo", .str "1.0"),
          ("dados_extraidos", .dict
            [ ("banco", banco),
              ("codigo_banco", codigo_banco),
              ("valor", valor),
              ("vencimento", vencimento) ]) ]) ])

/-- The fixed template returned for a non-fraud verdict. -/
def recomendacaoValido : PyVal :=
  .dict [ ("nivel_risco", .str "BAIXO"),
          ("emoji", .str "✅"),
          ("cor", .str "green"),
          ("acao_principal", .str "PODE PAGAR"),
          ("mensagem", .str "Este boleto passou nas verificações de segurança. Ainda assim, sempre confira os dados do beneficiário antes de efetuar o pagamento."),
          ("proximos_passos", .list
            [ .str "Confira o nome do beneficiário",
              .str "Verifique o valor e vencimento",
              .str "Efetue o pagamento com segurança" ]) ]

/-- The fixed template for `nivel_risco == "CRITICO"`. -/
def recomendacaoCritico : PyVal :=
  .dict [ ("nivel_risco", .str "CRÍTICO"),
          ("emoji", .str "🚨"),
          ("cor", .str "red"),
          ("acao_principal", .str "NÃO PAGAR"),
          ("mensagem", .str "Este boleto apresenta sinais CLAROS de fraude. NÃO efetue o pagamento sob nenhuma circunstância. Entre em contato com o emissor através de canais oficiais para verificar a autenticidade."),
          ("proximos_passos", .list
            [ .str "❌ NÃO efetue o pagamento",
              .str "📞 Entre em contato com o emissor por canais oficiais",
              .str "🚨 Reporte a tentativa de fraude às autoridades",
              .str "⚠️ Alerte outras pessoas sobre este golpe" ]) ]

/-- The fixed template for `nivel_risco == "ALTO"`. -/
def recomendacaoAlto : PyVal :=
  .dict [ ("nivel_risco", .str "ALTO"),
          ("emoji", .str "⚠️"),
          ("cor", .str "orange"),
          ("acao_principal", .str "SUSPEITO - NÃO PAGAR"),
          ("mensagem", .str "Este boleto apresenta características SUSPEITAS. Recomendamos fortemente que você NÃO efetue o pagamento até confirmar sua autenticidade com o emissor."),
          ("proximos_passos", .list
            [ .str "🛑 Suspenda o pagamento",
              .str "📞 Confirme com o emissor por telefone oficial",
              .str "🔍 Solicite um novo boleto se houver dúvidas",
              .str "⚠️ Mantenha vigilância contra possíveis golpes" ]) ]

/-- The fixed template of the final `else` branch (labelled MÉDIO). -/
def recomendacaoMedio : PyVal :=
  .dict [ ("nivel_risco", .str "MÉDIO"),
          ("emoji", .str "ℹ️"),
          ("cor", .str "yellow"),
          ("acao_principal", .str "VERIFICAR ANTES DE PAGAR"),
          ("mensagem", .str "Este boleto apresenta algumas inconsistências. Por precaução, confirme os dados com o emissor antes de efetuar o pagamento."),
          ("proximos_passos", .list
            [ .str "🔍 Verifique os dados do beneficiário",
              .str "📞 Confirme com o emissor se possível",
              .str "⏸️ Considere aguardar confirmação antes de pagar",
              .str "✅ Prossiga com cautela após verificação" ]) ]

/-- `gerar_recomendacao`; `score` is accepted but never read. -/
def gerar_recomendacao (is_fraudulento : Bool) (nivel_risco : String)
    (score : PyVal) : PyVal :=
  let _ := score
  if !is_fraudulento then recomendacaoValido
  else if nivel_risco = "CRITICO" then recomendacaoCritico
  else if nivel_risco = "ALTO" then recomendacaoAlto
  else recomendacaoMedio

/-- `determinar_nivel_risco`. -/
def determinar_nivel_risco (score : PyVal) (is_fraudulento : Bool) : Py String :=
  if !is_fraudulento then .ok "BAIXO"
  else do
    let q ← toRatOrErr score
    .ok (if 80 ≤ q then "CRITICO"
      else if 60 ≤ q then "ALTO"
      else if 40 ≤ q then "MEDIO"
      else "BAIXO")

/-- `gerar_explicacao_fallback`. -/
def gerar_explicacao_fallback (is_fraudulento : Bool) : PyVal :=
  .dict [ ("simples", .dict
            [ ("status", .str (if is_fraudulento then "FRAUDULENTO" else "VÁLIDO")),
              ("resumo", .str "Análise concluída"),
              ("acao_recomendada", .str "Verifique os detalhes") ]),
          ("avancado", .dict []),
          ("razoes", .list []),
          ("recomendacao", .dict
            [ ("nivel_risco", .str "DESCONHECIDO"),
              ("mensagem", .str "Erro ao gerar explicação detalhada") ]) ]

/-- The `try`-block body of `gerar_explicacao_completa` up to the
timestamp field (the timestamp is the last value evaluated in the
output dict literal). -/
def synthCampos (is_fraudulento : Bool) (validacao predicao_ml dados_extraidos : PyVal) :
    Py (List (String × PyVal)) := do
  let score ← pyGetD predicao_ml "score_fraude" (.int 0)
  let nivel_risco ← determinar_nivel_risco score is_fraudulento
  let razoes ← coletar_razoes validacao predicao_ml
  let simples ← gerar_modo_simples is_fraudulento razoes nivel_risco score
  let avancado ← gerar_modo_avancado validacao predicao_ml dados_extraidos
  let recomendacao := gerar_recomendacao is_fraudulento nivel_risco score
  .ok [ ("simples", simples),
        ("avancado", avancado),
        ("razoes", .list (razoes.map razaoToPy)),
        ("recomendacao", recomendacao) ]

/-- The `try`-block body of `gerar_explicacao_completa`;
`now` is the value of `datetime.utcnow().isoformat()`. -/
def synthCore (is_fraudulento : Bool) (validacao predicao_ml dados_extraidos : PyVal)
    (now : String) : Py PyVal := do
  let campos ← synthCampos is_fraudulento validacao predicao_ml dados_extraidos
  .ok (.dict (campos ++ [("gerado_em", .str now)]))

/-- `gerar_explicacao_completa`: the `try`/`except` wrapper, which
catches every exception of the body and answers with the fallback. -/
def gerar_explicacao_completa (is_fraudulento : Bool)
    (validacao predicao_ml dados_extraidos : PyVal) (now : String) : PyVal :=
  match synthCore is_fraudulento validacao predicao_ml dados_extraidos now with
  | .ok e => e
  | .error _ => gerar_explicacao_fallback is_fraudulento

-- ===================================================================
-- src/api/main.py : the submission endpoint analisar_boleto
-- ===================================================================

/-- Observable side effects of the submission endpoint, in program
order: the Job Store (MongoDB) insert and the Work Queue (Redis) push. -/
inductive GatewayEvent where
  | insertAnalise (analiseId status fileType : String) (fileSize : Nat)
      (fileName uploadedAt : String) : GatewayEvent
  | rpushJob (queue analiseId fileType : String) (fileBytes : List Nat) : GatewayEvent
deriving DecidableEq, Repr

/-- The uploaded file as the endpoint sees it (`file.content_type`,
`file.filename`, and the payload read into `file_bytes`). -/
structure UploadFile where
  filename : String
  content_type : String
  bytes : List Nat
deriving DecidableEq, Repr

/-- The JSON body returned on success. -/
structure AnalisarResponse where
  id : String
  status : String
  message : String
  fileName : String
  fileSize : Nat
  fileType : String
deriving DecidableEq, Repr

/-- An `HTTPException(status_code, detail)`. -/
structure HttpError where
  statusCode : Nat
  detail : String
deriving DecidableEq, Repr

def allowed_types : List String := ["image/jpeg", "image/png", "application/pdf"]

/-- `analisar_boleto`.  `freshId` is the value of `str(uuid.uuid4())`
and `now` of `datetime.utcnow()`; `insertRes`/`pushRes` are the
outcomes of the two external calls (MongoDB insert, Redis rpush), a
failure carrying the exception text.  Returns the HTTP outcome paired
with the trace of external side effects that actually happened, in
order.  The base64 encoding of the payload is a bijection and the
queued item is modelled as carrying the raw bytes. -/
def analisar_boleto (file : UploadFile) (freshId now : String)
    (insertRes pushRes : Except String Unit) :
    Except HttpError AnalisarResponse × List GatewayEvent :=
  if file.content_type ∉ allowed_types then
    (.error { statusCode := 400,
              detail := "Tipo de arquivo inválido. Aceitos: " ++ String.intercalate ", " allowed_types },
     [])
  else if 10 * 1024 * 1024 < file.bytes.length then
    (.error { statusCode := 400, detail := "Arquivo muito grande. Máximo: 10MB" }, [])
  else if file.bytes.length = 0 then
    (.error { statusCode := 400, detail := "Arquivo vazio" }, [])
  else
    match insertRes with
    | .error e =>
      (.error { statusCode := 500, detail := "Erro interno ao processar arquivo: " ++ e }, [])
    | .ok () =>
      match pushRes with
      | .error e =>
        (.error { statusCode := 500, detail := "Erro interno ao processar arquivo: " ++ e },
         [GatewayEvent.insertAnalise freshId "processing" file.content_type
            file.bytes.length file.filename now])
      | .ok () =>
        (.ok { id := freshId,
               status := "processing",
               message := "Boleto recebido e adicionado à fila de processamento",
               fileName := file.filename,
               fileSize := file.bytes.length,
               fileType := file.content_type },
         [GatewayEvent.insertAnalise freshId "processing" file.content_type
            file.bytes.length file.filename now,
          GatewayEvent.rpushJob "boletos:jobs" freshId file.content_type file.bytes])

-- ===================================================================
-- Accessors used to state the properties
-- ===================================================================

/-- Field access on a dict value. -/
def dictGet (v : PyVal) (k : String) : Option PyVal :=
  match v with
  | .dict kvs => lookupStr kvs k
  | _ => Option.none

/-- The risk level rendered into an explication
(`explicacao["recomendacao"]["nivel_risco"]`). -/
def nivelRiscoDe (e : PyVal) : Option PyVal :=
  (dictGet e "recomendacao").bind (fun r => dictGet r "nivel_risco")

/-- `explicacao["recomendacao"]["mensagem"]`. -/
def mensagemDe (e : PyVal) : Option PyVal :=
  (dictGet e "recomendacao").bind (fun r => dictGet r "mensagem")

/-- `explicacao["simples"]["status"]`. -/
def statusSimplesDe (e : PyVal) : Option PyVal :=
  (dictGet e "simples").bind (fun r => dictGet r "status")

/-- `explicacao["razoes"]`. -/
def razoesDe (e : PyVal) : Option PyVal :=
  dictGet e "razoes"

/-- Removes a key from a dict value (used to compare explications up to
the generation timestamp). -/
def eraseKey (v : PyVal) (k : String) : PyVal :=
  match v with
  | .dict kvs => .dict (kvs.filter fun kv => kv.1 ≠ k)
  | x => x

end DetectaBB

-- ===================================================================
-- Theorems
-- ===================================================================

namespace DetectaBB

theorem confAlta_eq : confAlta = 8/10 := by
  norm_num [confAlta, Rat.mk'_eq_divInt, Rat.divInt_eq_div]

theorem confMedia_eq : confMedia = 6/10 := by
  norm_num [confMedia, Rat.mk'_eq_divInt, Rat.divInt_eq_div]

/-- Inversion of a successful bind in the `Py` monad. -/
theorem pyBind_ok {α β : Type} {x : Py α} {f : α → Py β} {b : β}
    (h : (x >>= f) = .ok b) : ∃ a, x = .ok a ∧ f a = .ok b := by
  cases x with
  | error e => simp [Bind.bind, Except.bind] at h
  | ok a => exact ⟨a, rfl, by simpa [Bind.bind, Except.bind] using h⟩

/-- A successful `mapPy` keeps the length and every output comes from
a successful application on some input element. -/
theorem mapPy_ok {α β : Type} (f : α → Py β) :
    ∀ (l : List α) (ys : List β), mapPy f l = .ok ys →
      ys.length = l.length ∧ ∀ y ∈ ys, ∃ x ∈ l, f x = .ok y := by
  intro l
  induction l with
  | nil =>
    intro ys h
    simp only [mapPy, Except.ok.injEq] at h
    subst h
    simp
  | cons x xs ih =>
    intro ys h
    simp only [mapPy] at h
    obtain ⟨y, hy, h⟩ := pyBind_ok h
    obtain ⟨ys', hys, h⟩ := pyBind_ok h
    simp only [Except.ok.injEq] at h
    subst h
    obtain ⟨hlen, hmem⟩ := ih ys' hys
    refine ⟨by simp [hlen], ?_⟩
    intro z hz
    rcases List.mem_cons.mp hz with hz | hz
    · exact ⟨x, by simp, hz ▸ hy⟩
    · obtain ⟨w, hw, hfw⟩ := hmem z hz
      exact ⟨w, by simp [hw], hfw⟩

/-- `pySort` does not move anything in an already-sorted list. -/
theorem pySort_of_sorted {α : Type} (le : α → α → Bool) :
    ∀ l : List α, l.Pairwise (fun a b => le a b = true) → pySort le l = l := by
  intro l
  induction l with
  | nil => intro _; rfl
  | cons x xs ih =>
    intro h
    rw [List.pairwise_cons] at h
    rw [pySort, ih h.2]
    cases xs with
    | nil => rfl
    | cons y ys => simp [pyInsert, h.1 y (by simp)]

/-- `pyInsert` produces a permutation of pushing in front. -/
theorem pyInsert_perm {α : Type} (le : α → α → Bool) (x : α) :
    ∀ l : List α, (pyInsert le x l).Perm (x :: l) := by
  intro l
  induction l with
  | nil => simp [pyInsert]
  | cons y ys ih =>
    by_cases h : le x y
    · simp [pyInsert, h]
    · simp only [pyInsert, h, if_neg]
      exact ((ih.cons y).trans (List.Perm.swap x y ys))

/-- `pySort` permutes its input. -/
theorem pySort_perm {α : Type} (le : α → α → Bool) :
    ∀ l : List α, (pySort le l).Perm l := by
  intro l
  induction l with
  | nil => simp [pySort]
  | cons x xs ih => exact (pyInsert_perm le x (pySort le xs)).trans (ih.cons x)

/-- `toRatOrErr` succeeds exactly with the numeric reading. -/
theorem toRatOrErr_ok {c : PyVal} {q : Rat} (h : toRatOrErr c = .ok q) :
    toRatNum c = some q := by
  unfold toRatOrErr at h
  cases hc : toRatNum c <;> rw [hc] at h <;> simp_all

/-- Every signal built from a validation error is critical, has
impact `1.0` and carries the validation source tag. -/
theorem mkRazaoValidacao_fields {e : PyVal} {r : Razao}
    (h : mkRazaoValidacao e = .ok r) :
    r.gravidade = "critica" ∧ r.impacto = .float 1 ∧ r.fonte = "Validação FEBRABAN" := by
  simp only [mkRazaoValidacao] at h
  obtain ⟨t?, ht, h⟩ := pyBind_ok h
  rcases t? with _ | t <;>
    · simp only [Except.ok.injEq] at h
      subst h
      exact ⟨rfl, rfl, rfl⟩

theorem mkRazaoMl_fonte (c : PyVal) (cq : Rat) (nf : Nat) :
    (mkRazaoMl c cq nf).fonte = "Modelo de IA" := rfl

theorem mkRazaoMl_impacto (c : PyVal) (cq : Rat) (nf : Nat) :
    (mkRazaoMl c cq nf).impacto = c := rfl

theorem mkRazaoMl_gravidade (c : PyVal) (cq : Rat) (nf : Nat) :
    (mkRazaoMl c cq nf).gravidade =
      if confAlta ≤ cq then "alta" else if confMedia ≤ cq then "media" else "baixa" := rfl

/-- The ML signal is never critical. -/
theorem mkRazaoMl_rank_lt (c : PyVal) (cq : Rat) (nf : Nat) :
    gravidadeRank (mkRazaoMl c cq nf).gravidade < 4 := by
  rw [mkRazaoMl_gravidade]
  split_ifs <;> decide

/-- Inversion of a successful `coletarRazoesList`. -/
theorem coletarRazoesList_spec {v p : PyVal} {l : List Razao}
    (h : coletarRazoesList v p = .ok l) :
    ∃ es razoesV flag,
      errosDe v = .ok es
      ∧ mapPy mkRazaoValidacao es = .ok razoesV
      ∧ pyGet p "is_fraudulento" = .ok flag
      ∧ ((pyTruthy flag = false ∧ l = razoesV)
        ∨ (pyTruthy flag = true ∧ ∃ c cq fu nf,
            pyGetD p "confianca" (.int 0) = .ok c
            ∧ toRatNum c = some cq
            ∧ pyGetD p "features_usadas" (.dict []) = .ok fu
            ∧ pyLen fu = .ok nf
            ∧ l = razoesV ++ [mkRazaoMl c cq nf])) := by
  simp only [coletarRazoesList] at h
  obtain ⟨es, hes, h⟩ := pyBind_ok h
  obtain ⟨razoesV, hrv, h⟩ := pyBind_ok h
  obtain ⟨flag, hflag, h⟩ := pyBind_ok h
  by_cases hf : pyTruthy flag
  · rw [if_pos hf] at h
    obtain ⟨c, hc, h⟩ := pyBind_ok h
    obtain ⟨cq, hq, h⟩ := pyBind_ok h
    obtain ⟨fu, hfu, h⟩ := pyBind_ok h
    obtain ⟨nf, hnf, h⟩ := pyBind_ok h
    simp only [Except.ok.injEq] at h
    exact ⟨es, razoesV, flag, hes, hrv, hflag,
      .inr ⟨hf, c, cq, fu, nf, hc, toRatOrErr_ok hq, hfu, hnf, h.symm⟩⟩
  · rw [if_neg hf] at h
    simp only [Except.ok.injEq] at h
    exact ⟨es, razoesV, flag, hes, hrv, hflag,
      .inl ⟨by simpa using hf, h.symm⟩⟩

/-- The collected signal list is already sorted for the descending
`(severityRank, impact)` order. -/
theorem coletarRazoesList_sorted {v p : PyVal} {l : List Razao}
    (h : coletarRazoesList v p = .ok l) :
    l.Pairwise (fun a b => razaoKeyGe a b = true) := by
  obtain ⟨es, razoesV, flag, hes, hrv, hflag, hcase⟩ := coletarRazoesList_spec h
  have hv : ∀ r ∈ razoesV,
      gravidadeRank r.gravidade = 4 ∧ impactoRat r = 1 := by
    intro r hr
    obtain ⟨x, _, hfx⟩ := (mapPy_ok _ es razoesV hrv).2 r hr
    obtain ⟨hg, hi, _⟩ := mkRazaoValidacao_fields hfx
    constructor
    · rw [hg]; decide
    · rw [impactoRat, hi]; decide
  have hpairV : razoesV.Pairwise (fun a b => razaoKeyGe a b = true) := by
    refine List.pairwise_of_forall_mem_list ?_
    intro a ha b hb
    obtain ⟨hga, hia⟩ := hv a ha
    obtain ⟨hgb, hib⟩ := hv b hb
    simp [razaoKeyGe, hga, hgb, hia, hib]
  rcases hcase with ⟨_, hl⟩ | ⟨_, c, cq, fu, nf, _, _, _, _, hl⟩
  · exact hl ▸ hpairV
  · subst hl
    rw [List.pairwise_append]
    refine ⟨hpairV, by simp, ?_⟩
    intro a ha b hb
    rw [List.mem_singleton] at hb
    subst hb
    obtain ⟨hga, _⟩ := hv a ha
    simp only [razaoKeyGe, decide_eq_true_eq]
    left
    rw [hga]
    exact mkRazaoMl_rank_lt c cq nf

/-- On every reachable input the collected list is already sorted, so
the stable sort of `coletar_razoes` is the identity. -/
theorem coletar_razoes_ok {v p : PyVal} {out : List Razao}
    (h : coletar_razoes v p = .ok out) :
    coletarRazoesList v p = .ok out := by
  simp only [coletar_razoes] at h
  obtain ⟨l, hl, h2⟩ := pyBind_ok h
  simp only [Except.ok.injEq] at h2
  rw [hl, ← h2, pySort_of_sorted _ l (coletarRazoesList_sorted hl)]

/-- Inversion of a successful synthesis body: the produced fields. -/
theorem synthCampos_ok {isF : Bool} {v p d : PyVal} {campos : List (String × PyVal)}
    (h : synthCampos isF v p d = .ok campos) :
    ∃ score nivel razoes simples avancado,
      pyGetD p "score_fraude" (.int 0) = .ok score
      ∧ determinar_nivel_risco score isF = .ok nivel
      ∧ coletar_razoes v p = .ok razoes
      ∧ gerar_modo_simples isF razoes nivel score = .ok simples
      ∧ gerar_modo_avancado v p d = .ok avancado
      ∧ campos = [ ("simples", simples), ("avancado", avancado),
                   ("razoes", .list (razoes.map razaoToPy)),
                   ("recomendacao", gerar_recomendacao isF nivel score) ] := by
  simp only [synthCampos] at h
  obtain ⟨score, h1, h⟩ := pyBind_ok h
  obtain ⟨nivel, h2, h⟩ := pyBind_ok h
  obtain ⟨razoes, h3, h⟩ := pyBind_ok h
  obtain ⟨simples, h4, h⟩ := pyBind_ok h
  obtain ⟨avancado, h5, h⟩ := pyBind_ok h
  simp only [Except.ok.injEq] at h
  exact ⟨score, nivel, razoes, simples, avancado, h1, h2, h3, h4, h5, h.symm⟩

/-- Inversion of a successful `synthCore`. -/
theorem synthCore_ok {isF : Bool} {v p d : PyVal} {now : String} {out : PyVal}
    (h : synthCore isF v p d now = .ok out) :
    ∃ campos, synthCampos isF v p d = .ok campos
      ∧ out = .dict (campos ++ [("gerado_em", .str now)]) := by
  simp only [synthCore] at h
  obtain ⟨campos, h1, h2⟩ := pyBind_ok h
  simp only [Except.ok.injEq] at h2
  exact ⟨campos, h1, h2.symm⟩

/-- C1: for every pair of inputs, well-formed or malformed, verdict
synthesis returns a value and never propagates an exception: on a
successful body it returns the synthesized explication, and whenever
any internal step raises it returns exactly the fallback verdict,
which carries an empty signal list, risk level `DESCONHECIDO`
(UNKNOWN), the fixed apology message, and a bare status. -/
theorem sintese_total_com_fallback (isF : Bool) (v p d : PyVal) (now : String) :
    (∀ out, synthCore isF v p d now = .ok out →
        gerar_explicacao_completa isF v p d now = out)
    ∧ (∀ e, synthCore isF v p d now = .error e →
        gerar_explicacao_completa isF v p d now = gerar_explicacao_fallback isF)
    ∧ razoesDe (gerar_explicacao_fallback isF) = some (.list [])
    ∧ nivelRiscoDe (gerar_explicacao_fallback isF) = some (.str "DESCONHECIDO")
    ∧ mensagemDe (gerar_explicacao_fallback isF) = some (.str "Erro ao gerar explicação detalhada")
    ∧ statusSimplesDe (gerar_explicacao_fallback isF)
        = some (.str (if isF then "FRAUDULENTO" else "VÁLIDO")) := by
  refine ⟨?_, ?_, rfl, rfl, rfl, rfl⟩
  · intro out h
    simp only [gerar_explicacao_completa, h]
  · intro e h
    simp only [gerar_explicacao_completa, h]

/-- C1 witness: a malformed classifier result (`score_fraude` holding a
string) makes the body raise a `TypeError`; the caller still receives
the fallback verdict. -/
theorem sintese_total_com_fallback_witness :
    gerar_explicacao_completa false (.dict []) (.dict [("score_fraude", .str "x")]) (.dict []) "t"
      = gerar_explicacao_fallback false :=
  (sintese_total_com_fallback false (.dict []) (.dict [("score_fraude", .str "x")])
    (.dict []) "t").2.1 "TypeError" rfl

/-- C2 counterexample: with `isFraud = false` and a malformed classifier
result, the synthesized verdict is the fallback, whose risk level is
`DESCONHECIDO`, not `BAIXO` — so the claim fails "over all inputs". -/
theorem naoFraude_risco_baixo_counterexample :
    nivelRiscoDe (gerar_explicacao_completa false (.dict [])
        (.dict [("score_fraude", .str "x")]) (.dict []) "t")
      = some (.str "DESCONHECIDO")
    ∧ PyVal.str "DESCONHECIDO" ≠ PyVal.str "BAIXO" := by
  refine ⟨rfl, ?_⟩
  intro h
  injection h with h2
  exact absurd h2 (by decide)

/-- C2 amended: on every input on which the synthesis body completes
without an internal failure, `isFraud = false` implies the rendered
risk level is `BAIXO`, regardless of the classifier score. -/
theorem naoFraude_risco_baixo (v p d : PyVal) (now : String) (out : PyVal)
    (h : synthCore false v p d now = .ok out) :
    gerar_explicacao_completa false v p d now = out
    ∧ nivelRiscoDe out = some (.str "BAIXO") := by
  refine ⟨by simp only [gerar_explicacao_completa, h], ?_⟩
  obtain ⟨campos, hc, hout⟩ := synthCore_ok h
  obtain ⟨score, nivel, razoes, simples, avancado, _, _, _, _, _, hcampos⟩ := synthCampos_ok hc
  subst hcampos
  subst hout
  rfl

/-- C2 amended witness: a well-formed non-fraud input synthesizes a
verdict with risk level `BAIXO`. -/
theorem naoFraude_risco_baixo_witness :
    nivelRiscoDe (gerar_explicacao_completa false
        (.dict [("valido", .bool true), ("erros", .list [])])
        (.dict [("is_fraudulento", .bool false), ("score_fraude", .int 5)])
        (.dict []) "t")
      = some (.str "BAIXO") :=
  (naoFraude_risco_baixo (.dict [("valido", .bool true), ("erros", .list [])])
    (.dict [("is_fraudulento", .bool false), ("score_fraude", .int 5)])
    (.dict []) "t" _ rfl).2

/-- C5: with `isFraud = true` the risk level is a function of the
classifier score alone, by the thresholds 80/60/40; in particular a
fraudulent verdict with score below 40 still gets risk level `BAIXO`. -/
theorem risco_por_score (s : PyVal) (q : Rat) (h : toRatNum s = some q) :
    determinar_nivel_risco s true =
      .ok (if 80 ≤ q then "CRITICO" else if 60 ≤ q then "ALTO"
        else if 40 ≤ q then "MEDIO" else "BAIXO")
    ∧ (q < 40 → determinar_nivel_risco s true = .ok "BAIXO") := by
  have ht : toRatOrErr s = .ok q := by simp [toRatOrErr, h]
  have h1 : determinar_nivel_risco s true =
      .ok (if 80 ≤ q then "CRITICO" else if 60 ≤ q then "ALTO"
        else if 40 ≤ q then "MEDIO" else "BAIXO") := by
    simp only [determinar_nivel_risco, Bool.not_true, ht]
    rfl
  refine ⟨h1, fun hq => ?_⟩
  rw [h1, if_neg (by linarith), if_neg (by linarith), if_neg (by linarith)]

/-- C5 witness: an integer score of 90 yields `CRITICO`. -/
theorem risco_por_score_witness :
    determinar_nivel_risco (.int 90) true = .ok "CRITICO" := by
  rw [(risco_por_score (.int 90) ((90 : Int) : Rat) rfl).1]
  rfl

/-- C10: an error string without a translation falls back to category
key `outros`, which is absent from `CATEGORIAS`, so the signal keeps
`outros` as its category key but borrows the display fields of the
`padrao_ml` category, and both its lay and technical texts are the raw
error string; every translated category, by contrast, is present in
`CATEGORIAS`. -/
theorem categoria_desconhecida_outros (erro : String)
    (h : lookupStr TRADUCOES_ERROS erro = Option.none) :
    mkRazaoValidacao (.str erro) = .ok
      { gravidade := "critica", categoria := "outros",
        categoria_nome := "Padrão Detectado por IA", icone := "🤖", cor := "purple",
        titulo := .str erro, descricao_simples := .str erro, descricao_avancada := .str erro,
        impacto := .float 1, fonte := "Validação FEBRABAN" }
    ∧ lookupStr CATEGORIAS "outros" = Option.none
    ∧ (∀ kv ∈ TRADUCOES_ERROS, (lookupStr CATEGORIAS kv.2.categoria).isSome = true) := by
  refine ⟨?_, rfl, by decide⟩
  simp only [mkRazaoValidacao, tradErro, h]
  rfl

/-- C10 witness: the unknown error string "zzz". -/
theorem categoria_desconhecida_outros_witness :
    mkRazaoValidacao (.str "zzz") = .ok
      { gravidade := "critica", categoria := "outros",
        categoria_nome := "Padrão Detectado por IA", icone := "🤖", cor := "purple",
        titulo := .str "zzz", descricao_simples := .str "zzz", descricao_avancada := .str "zzz",
        impacto := .float 1, fonte := "Validação FEBRABAN" } :=
  (categoria_desconhecida_outros "zzz" rfl).1

/-- C3: `coletar_razoes` leaves the collected list in descending
`(severityRank, impact)` order with the claimed rank values, and the
sort is stable — in fact on every reachable collected list the sort is
the identity, so signals with equal severity and equal impact keep their
collection order exactly (the filter by any fixed key is unchanged), and
the collected order itself places all validator signals before the (at
most one) ML signal. -/
theorem ranking_estavel (v p : PyVal) (l out : List Razao)
    (hl : coletarRazoesList v p = .ok l)
    (h : coletar_razoes v p = .ok out) :
    out = l
    ∧ out.Pairwise (fun a b => razaoKeyGe a b = true)
    ∧ (∀ k : Int × Rat,
        out.filter (fun r => decide ((gravidadeRank r.gravidade, impactoRat r) = k))
          = l.filter (fun r => decide ((gravidadeRank r.gravidade, impactoRat r) = k)))
    ∧ (∃ lv lm, l = lv ++ lm
        ∧ (∀ r ∈ lv, r.fonte = "Validação FEBRABAN")
        ∧ (∀ r ∈ lm, r.fonte = "Modelo de IA")
        ∧ lm.length ≤ 1)
    ∧ gravidadeRank "critica" = 4 ∧ gravidadeRank "alta" = 3
    ∧ gravidadeRank "media" = 2 ∧ gravidadeRank "baixa" = 1 := by
  have hout : coletarRazoesList v p = .ok out := coletar_razoes_ok h
  have heq : out = l := by
    rw [hout] at hl
    exact Except.ok.inj hl
  subst heq
  refine ⟨rfl, coletarRazoesList_sorted hout, fun k => rfl, ?_, rfl, rfl, rfl, rfl⟩
  obtain ⟨es, razoesV, flag, _, hrv, _, hcase⟩ := coletarRazoesList_spec hout
  have hvfonte : ∀ r ∈ razoesV, r.fonte = "Validação FEBRABAN" := by
    intro r hr
    obtain ⟨x, _, hfx⟩ := (mapPy_ok _ es razoesV hrv).2 r hr
    exact (mkRazaoValidacao_fields hfx).2.2
  rcases hcase with ⟨_, hl'⟩ | ⟨_, c, cq, fu, nf, _, _, _, _, hl'⟩
  · exact ⟨razoesV, [], by simpa using hl', hvfonte, by simp, by simp⟩
  · exact ⟨razoesV, [mkRazaoMl c cq nf], hl', hvfonte,
      by simp [mkRazaoMl_fonte], by simp⟩

/-- C3 witness: two unknown error strings produce two signals with
identical keys; the output keeps their collection order. -/
theorem ranking_estavel_witness :
    ([⟨"critica", "outros", "Padrão Detectado por IA", "🤖", "purple",
        .str "aa", .str "aa", .str "aa", .float 1, "Validação FEBRABAN"⟩,
      ⟨"critica", "outros", "Padrão Detectado por IA", "🤖", "purple",
        .str "bb", .str "bb", .str "bb", .float 1, "Validação FEBRABAN"⟩] : List Razao)
      = [⟨"critica", "outros", "Padrão Detectado por IA", "🤖", "purple",
          .str "aa", .str "aa", .str "aa", .float 1, "Validação FEBRABAN"⟩,
         ⟨"critica", "outros", "Padrão Detectado por IA", "🤖", "purple",
          .str "bb", .str "bb", .str "bb", .float 1, "Validação FEBRABAN"⟩]
    ∧ ([⟨"critica", "outros", "Padrão Detectado por IA", "🤖", "purple",
          .str "aa", .str "aa", .str "aa", .float 1, "Validação FEBRABAN"⟩,
        ⟨"critica", "outros", "Padrão Detectado por IA", "🤖", "purple",
          .str "bb", .str "bb", .str "bb", .float 1, "Validação FEBRABAN"⟩] : List Razao).Pairwise
        (fun a b => razaoKeyGe a b = true) :=
  ⟨(ranking_estavel (.dict [("erros", .list [.str "aa", .str "bb"])]) (.dict []) _ _ rfl rfl).1,
   (ranking_estavel (.dict [("erros", .list [.str "aa", .str "bb"])]) (.dict []) _ _ rfl rfl).2.1⟩

/-- The ML signal is not labelled critical. -/
theorem mkRazaoMl_not_critica (c : PyVal) (cq : Rat) (nf : Nat) :
    ((mkRazaoMl c cq nf).gravidade == "critica") = false := by
  rw [mkRazaoMl_gravidade]
  split_ifs <;> rfl

/-- C6: every entry of the validation error list yields exactly one
critical signal of impact 1.0 (their count equals the number of
errors), and the classifier contributes at most one signal, present
exactly when it flags fraud, with impact equal to the confidence value
and severity by the 0.8 / 0.6 thresholds. -/
theorem sinais_por_fonte (v p : PyVal) (es : List PyVal) (flag c : PyVal) (cq : Rat)
    (out : List Razao)
    (h : coletar_razoes v p = .ok out)
    (he : errosDe v = .ok es)
    (hf : pyGet p "is_fraudulento" = .ok flag)
    (hc : pyGetD p "confianca" (.int 0) = .ok c)
    (hq : toRatNum c = some cq) :
    out.countP (fun r => r.gravidade == "critica") = es.length
    ∧ (∀ r ∈ out, r.gravidade = "critica" →
        r.impacto = .float 1 ∧ r.fonte = "Validação FEBRABAN")
    ∧ out.countP (fun r => r.fonte == "Modelo de IA") = (if pyTruthy flag then 1 else 0)
    ∧ (∀ r ∈ out, r.fonte = "Modelo de IA" → r.impacto = c ∧
        r.gravidade = (if 8/10 ≤ cq then "alta" else if 6/10 ≤ cq then "media" else "baixa")) := by
  obtain ⟨es', razoesV, flag', he', hrv, hf', hcase⟩ :=
    coletarRazoesList_spec (coletar_razoes_ok h)
  rw [he] at he'
  rw [hf] at hf'
  injection he' with hes
  subst hes
  injection hf' with hflg
  subst hflg
  have hlen : razoesV.length = es.length := (mapPy_ok _ es razoesV hrv).1
  have hvfields : ∀ r ∈ razoesV,
      r.gravidade = "critica" ∧ r.impacto = .float 1 ∧ r.fonte = "Validação FEBRABAN" := by
    intro r hr
    obtain ⟨x, _, hfx⟩ := (mapPy_ok _ es razoesV hrv).2 r hr
    exact mkRazaoValidacao_fields hfx
  have hcountV : razoesV.countP (fun r => r.gravidade == "critica") = razoesV.length := by
    rw [List.countP_eq_length]
    intro r hr
    simp [(hvfields r hr).1]
  have hcountVml : razoesV.countP (fun r => r.fonte == "Modelo de IA") = 0 := by
    rw [List.countP_eq_zero]
    intro r hr
    simp [(hvfields r hr).2.2]
  rcases hcase with ⟨hflag, hl'⟩ | ⟨hflag, c', cq', fu, nf, hc', hq', _, _, hl'⟩
  · subst hl'
    refine ⟨by rw [hcountV, hlen], fun r hr _ => (hvfields r hr).2, ?_, ?_⟩
    · rw [hflag, if_neg (by simp), hcountVml]
    · intro r hr hml
      exact absurd ((hvfields r hr).2.2.symm.trans hml) (by decide)
  · rw [hc] at hc'
    injection hc' with hceq
    subst hceq
    rw [hq] at hq'
    injection hq' with hcqeq
    subst hcqeq
    subst hl'
    refine ⟨?_, ?_, ?_, ?_⟩
    · rw [List.countP_append, hcountV, hlen]
      simp [List.countP_cons, mkRazaoMl_not_critica]
    · intro r hr hcrit
      rcases List.mem_append.mp hr with hr | hr
      · exact (hvfields r hr).2
      · rw [List.mem_singleton] at hr
        subst hr
        have := mkRazaoMl_not_critica c cq nf
        simp only [beq_eq_false_iff_ne, ne_eq] at this
        exact absurd hcrit this
    · rw [List.countP_append, hcountVml, hflag, if_pos rfl]
      simp [List.countP_cons, mkRazaoMl_fonte]
    · intro r hr hml
      rcases List.mem_append.mp hr with hr | hr
      · exact absurd ((hvfields r hr).2.2.symm.trans hml) (by decide)
      · rw [List.mem_singleton] at hr
        subst hr
        refine ⟨mkRazaoMl_impacto c cq nf, ?_⟩
        rw [mkRazaoMl_gravidade, confAlta_eq, confMedia_eq]

/-- C6 witness: one unknown validation error and a classifier flagging
fraud with confidence 0.85 give one critical signal and one high ML
signal. -/
theorem sinais_por_fonte_witness :
    ∃ out, coletar_razoes (.dict [("erros", .list [.str "zz"])])
        (.dict [("is_fraudulento", .bool true),
                ("confianca", .float ⟨17, 20, by decide, by decide⟩)]) = .ok out
      ∧ out.countP (fun r => r.gravidade == "critica") = 1
      ∧ out.countP (fun r => r.fonte == "Modelo de IA") = 1 := by
  refine ⟨_, rfl, ?_, ?_⟩
  · exact (sinais_por_fonte (.dict [("erros", .list [.str "zz"])])
      (.dict [("is_fraudulento", .bool true),
              ("confianca", .float ⟨17, 20, by decide, by decide⟩)])
      [.str "zz"] (.bool true) (.float ⟨17, 20, by decide, by decide⟩)
      ⟨17, 20, by decide, by decide⟩ _ rfl rfl rfl rfl rfl).1
  · rw [(sinais_por_fonte (.dict [("erros", .list [.str "zz"])])
      (.dict [("is_fraudulento", .bool true),
              ("confianca", .float ⟨17, 20, by decide, by decide⟩)])
      [.str "zz"] (.bool true) (.float ⟨17, 20, by decide, by decide⟩)
      ⟨17, 20, by decide, by decide⟩ _ rfl rfl rfl rfl rfl).2.2.1]
    rfl

/-- C4 counterexample: two synthesis inputs with the same risk level
`BAIXO` (fraud with score 0 versus no fraud) receive different
recommendations, and the fraud one carries the label `MÉDIO`, not its
risk level `BAIXO` — so the recommendation is not a function of the
risk level alone and its label can differ from the verdict's level. -/
theorem recomendacao_por_nivel_counterexample :
    determinar_nivel_risco (.int 0) true = .ok "BAIXO"
    ∧ determinar_nivel_risco (.int 0) false = .ok "BAIXO"
    ∧ gerar_recomendacao true "BAIXO" (.int 0) ≠ gerar_recomendacao false "BAIXO" (.int 0)
    ∧ dictGet (gerar_recomendacao true "BAIXO" (.int 0)) "nivel_risco" = some (.str "MÉDIO")
    ∧ PyVal.str "MÉDIO" ≠ PyVal.str "BAIXO" := by
  refine ⟨rfl, rfl, ?_, rfl, ?_⟩
  · intro h
    have h2 := congrArg (fun x => dictGet x "nivel_risco") h
    have h3 : some (PyVal.str "MÉDIO") = some (PyVal.str "BAIXO") := h2
    injection h3 with h4
    injection h4 with h5
    exact absurd h5 (by decide)
  · intro h
    injection h with h2
    exact absurd h2 (by decide)

/-- C4 amended: the recommendation is drawn from a fixed table of four
templates, but it is a function of the pair (isFraud, riskLevel), not
of the risk level alone: no fraud always gives the LOW template; fraud
gives the CRITICAL and HIGH templates on those levels and the MEDIUM
template on every other level — including risk level `BAIXO`, whose
recommendation label is `MÉDIO`.  The score argument is never read.
The template labels are `BAIXO`, `CRÍTICO`, `ALTO`, `MÉDIO`. -/
theorem recomendacao_por_nivel (isF : Bool) (nivel : String) (s t : PyVal) :
    gerar_recomendacao isF nivel s = gerar_recomendacao isF nivel t
    ∧ (isF = false → gerar_recomendacao isF nivel s = recomendacaoValido)
    ∧ (isF = true → gerar_recomendacao isF nivel s =
        if nivel = "CRITICO" then recomendacaoCritico
        else if nivel = "ALTO" then recomendacaoAlto
        else recomendacaoMedio)
    ∧ dictGet recomendacaoValido "nivel_risco" = some (.str "BAIXO")
    ∧ dictGet recomendacaoCritico "nivel_risco" = some (.str "CRÍTICO")
    ∧ dictGet recomendacaoAlto "nivel_risco" = some (.str "ALTO")
    ∧ dictGet recomendacaoMedio "nivel_risco" = some (.str "MÉDIO") := by
  refine ⟨rfl, ?_, ?_, rfl, rfl, rfl, rfl⟩
  · intro h
    subst h
    rfl
  · intro h
    subst h
    rfl

/-- C4 amended witness: fraud at level `ALTO` gets the HIGH template. -/
theorem recomendacao_por_nivel_witness :
    gerar_recomendacao true "ALTO" (.int 0) = recomendacaoAlto := by
  rw [(recomendacao_por_nivel true "ALTO" (.int 0) (.int 5)).2.2.1 rfl]
  rfl

/-- C9: verdict synthesis is deterministic in its inputs — two runs
with identical inputs and different clock readings agree on every field
other than `gerado_em` (in particular on the advanced view with its
per-feature `impacto` labels, computed from the fixed per-process
string hash), and a successful run differs from the other run's output
only in that timestamp field. -/
theorem sintese_deterministica (isF : Bool) (v p d : PyVal) (t₁ t₂ : String) :
    eraseKey (gerar_explicacao_completa isF v p d t₁) "gerado_em"
      = eraseKey (gerar_explicacao_completa isF v p d t₂) "gerado_em"
    ∧ (∀ out, synthCore isF v p d t₁ = .ok out →
        ∃ campos, out = .dict (campos ++ [("gerado_em", .str t₁)])
          ∧ synthCore isF v p d t₂ = .ok (.dict (campos ++ [("gerado_em", .str t₂)]))) := by
  constructor
  · cases hc : synthCampos isF v p d with
    | error e =>
      have h1 : synthCore isF v p d t₁ = .error e := by
        simp only [synthCore, hc]
        rfl
      have h2 : synthCore isF v p d t₂ = .error e := by
        simp only [synthCore, hc]
        rfl
      simp only [gerar_explicacao_completa, h1, h2]
    | ok campos =>
      have h1 : synthCore isF v p d t₁ = .ok (.dict (campos ++ [("gerado_em", .str t₁)])) := by
        simp only [synthCore, hc]
        rfl
      have h2 : synthCore isF v p d t₂ = .ok (.dict (campos ++ [("gerado_em", .str t₂)])) := by
        simp only [synthCore, hc]
        rfl
      simp only [gerar_explicacao_completa, h1, h2, eraseKey, List.filter_append]
      simp
  · intro out h1
    obtain ⟨campos, hc, hout⟩ := synthCore_ok h1
    refine ⟨campos, hout, ?_⟩
    simp only [synthCore, hc]
    rfl

/-- C9 witness: a successful run at one timestamp pins the other run's
output up to the timestamp field. -/
theorem sintese_deterministica_witness :
    ∃ campos,
      gerar_explicacao_completa false (.dict [("valido", .bool true), ("erros", .list [])])
          (.dict [("is_fraudulento", .bool false), ("score_fraude", .int 5)]) (.dict []) "t1"
        = .dict (campos ++ [("gerado_em", .str "t1")])
      ∧ synthCore false (.dict [("valido", .bool true), ("erros", .list [])])
          (.dict [("is_fraudulento", .bool false), ("score_fraude", .int 5)]) (.dict []) "t2"
        = .ok (.dict (campos ++ [("gerado_em", .str "t2")])) :=
  (sintese_deterministica false (.dict [("valido", .bool true), ("erros", .list [])])
    (.dict [("is_fraudulento", .bool false), ("score_fraude", .int 5)]) (.dict [])
    "t1" "t2").2 _ rfl

/-- C7: a submission with a content type outside the allow-list, an
empty payload, or a payload above 10 MiB is rejected with HTTP 400 and
the documented reason, with no Job Store write and no Work Queue push;
a payload of exactly 10 MiB with an allowed content type is accepted
(and, with healthy externals, recorded and enqueued). -/
theorem gateway_rejeicoes (file : UploadFile) (freshId now : String)
    (insertRes pushRes : Except String Unit) :
    (file.content_type ∉ allowed_types →
      analisar_boleto file freshId now insertRes pushRes =
        (.error { statusCode := 400,
                  detail := "Tipo de arquivo inválido. Aceitos: image/jpeg, image/png, application/pdf" },
         []))
    ∧ (file.content_type ∈ allowed_types → 10 * 1024 * 1024 < file.bytes.length →
      analisar_boleto file freshId now insertRes pushRes =
        (.error { statusCode := 400, detail := "Arquivo muito grande. Máximo: 10MB" }, []))
    ∧ (file.content_type ∈ allowed_types → file.bytes.length = 0 →
      analisar_boleto file freshId now insertRes pushRes =
        (.error { statusCode := 400, detail := "Arquivo vazio" }, []))
    ∧ (file.content_type ∈ allowed_types → file.bytes.length = 10 * 1024 * 1024 →
      analisar_boleto file freshId now (.ok ()) (.ok ()) =
        (.ok { id := freshId, status := "processing",
               message := "Boleto recebido e adicionado à fila de processamento",
               fileName := file.filename, fileSize := file.bytes.length,
               fileType := file.content_type },
         [ .insertAnalise freshId "processing" file.content_type file.bytes.length
             file.filename now,
           .rpushJob "boletos:jobs" freshId file.content_type file.bytes ])) := by
  refine ⟨?_, ?_, ?_, ?_⟩
  · intro hct
    rw [analisar_boleto.eq_def, if_pos hct]
    rfl
  · intro hct hsz
    rw [analisar_boleto.eq_def, if_neg (by simpa using hct), if_pos hsz]
  · intro hct hsz
    rw [analisar_boleto.eq_def, if_neg (by simpa using hct),
      if_neg (by rw [hsz]; decide), if_pos hsz]
  · intro hct hsz
    rw [analisar_boleto.eq_def, if_neg (by simpa using hct),
      if_neg (by rw [hsz]; exact lt_irrefl _), if_neg (by rw [hsz]; decide)]

/-- C7 witness: a 10 MiB PNG payload is accepted, recorded, then
enqueued. -/
theorem gateway_rejeicoes_witness :
    analisar_boleto ⟨"b.png", "image/png", List.replicate (10 * 1024 * 1024) 0⟩
        "id1" "t" (.ok ()) (.ok ()) =
      (.ok { id := "id1", status := "processing",
             message := "Boleto recebido e adicionado à fila de processamento",
             fileName := "b.png",
             fileSize := (List.replicate (10 * 1024 * 1024) (0 : Nat)).length,
             fileType := "image/png" },
       [ .insertAnalise "id1" "processing" "image/png"
           (List.replicate (10 * 1024 * 1024) (0 : Nat)).length "b.png" "t",
         .rpushJob "boletos:jobs" "id1" "image/png"
           (List.replicate (10 * 1024 * 1024) (0 : Nat)) ]) :=
  (gateway_rejeicoes ⟨"b.png", "image/png", List.replicate (10 * 1024 * 1024) 0⟩
    "id1" "t" (.ok ()) (.ok ())).2.2.2 (by decide) (List.length_replicate _ _)

/-- Every execution of the submission endpoint produces one of three
effect traces: nothing, the insert alone, or insert followed by push. -/
theorem analisar_boleto_trace (file : UploadFile) (freshId now : String)
    (insertRes pushRes : Except String Unit) :
    (analisar_boleto file freshId now insertRes pushRes).2 = []
    ∨ (analisar_boleto file freshId now insertRes pushRes).2
        = [.insertAnalise freshId "processing" file.content_type file.bytes.length
            file.filename now]
    ∨ (analisar_boleto file freshId now insertRes pushRes).2
        = [.insertAnalise freshId "processing" file.content_type file.bytes.length
            file.filename now,
           .rpushJob "boletos:jobs" freshId file.content_type file.bytes] := by
  rw [analisar_boleto.eq_def]
  by_cases h1 : file.content_type ∉ allowed_types
  · rw [if_pos h1]
    left
    rfl
  · rw [if_neg h1]
    by_cases h2 : 10 * 1024 * 1024 < file.bytes.length
    · rw [if_pos h2]
      left
      rfl
    · rw [if_neg h2]
      by_cases h3 : file.bytes.length = 0
      · rw [if_pos h3]
        left
        rfl
      · rw [if_neg h3]
        cases insertRes with
        | error e =>
          left
          rfl
        | ok u =>
          cases u
          cases pushRes with
          | error e =>
            right
            left
            rfl
          | ok u2 =>
            cases u2
            right
            right
            rfl

/-- C8: in every execution of the submission endpoint, a Work Queue
push observable in the effect trace is preceded by the Job Store write
of the `processing` record for the same job id — there is no trace
with a push and no earlier matching insert. -/
theorem gateway_ordem_efeitos (file : UploadFile) (freshId now : String)
    (insertRes pushRes : Except String Unit) (i : Nat) (q jid ft : String) (bs : List Nat)
    (h : ((analisar_boleto file freshId now insertRes pushRes).2).get? i
        = some (.rpushJob q jid ft bs)) :
    ∃ j, j < i ∧ ((analisar_boleto file freshId now insertRes pushRes).2).get? j
        = some (.insertAnalise jid "processing" file.content_type file.bytes.length
            file.filename now) := by
  rcases analisar_boleto_trace file freshId now insertRes pushRes with ht | ht | ht <;>
    rw [ht] at h ⊢
  · simp at h
  · match i, h with
    | 0, h => simp at h
    | n + 1, h => simp at h
  · match i, h with
    | 0, h => simp at h
    | 1, h =>
      refine ⟨0, by omega, ?_⟩
      simp only [List.get?] at h ⊢
      injection h with h2
      injection h2 with hq hjid hft hbs
      rw [← hjid]
    | n + 2, h => simp at h

/-- C8 witness: an accepted one-byte submission has its queue push at
index 1 preceded by the Job Store insert at index 0. -/
theorem gateway_ordem_efeitos_witness :
    ∃ j, j < 1 ∧ ((analisar_boleto ⟨"a.png", "image/png", [0]⟩ "id1" "t"
        (.ok ()) (.ok ())).2).get? j
      = some (.insertAnalise "id1" "processing" "image/png" 1 "a.png" "t") :=
  gateway_ordem_efeitos ⟨"a.png", "image/png", [0]⟩ "id1" "t" (.ok ()) (.ok ())
    1 "boletos:jobs" "id1" "image/png" [0] rfl

end DetectaBB

